import Mathlib

/-!
Verification of the PYUSD LayerZero/Stargate reference CLI.

This file gives a shallow embedding of the repository's core logic:

* slippage arithmetic (`calculateMinAmount` from the Stargate library and the
  inline computation in the Stargate transfer command),
* mesh routing over the two-mesh chain configuration
  (`loadChainConfigs`, `getChainConfig`, `getChainConfigForNetwork`,
  `resolveChainConfigsForTransfer` from `src/lib/chains.ts`),
* the OFT helper library (`checkAndApprove`, `quoteSend`, `send` from
  `src/lib/oft.ts`), with network effects modelled as an explicit
  environment plus an action trace,
* the transfer orchestration (`transferCommand` from
  `src/commands/transfer.ts`),
* the Stargate quote client (`fetchStargateQuote` from
  `src/lib/stargate.ts`).

Amounts are JavaScript BigInt values, modelled as `ℤ` (or `ℕ` where the
source value is a uint256 read from chain); BigInt division truncates
toward zero, which is `Int.tdiv`.
-/

namespace PyusdLz

/-! ## Slippage arithmetic -/

/-- Slippage floor from `calculateMinAmount` in `src/lib/stargate.ts`
(the same formula appears inline in the Stargate `transfer` and `quote`
commands):
`slippageBasisPoints = Math.floor(slippagePercent * 100)` and
`minAmount = (amount * (10000n - bps)) / 10000n` with BigInt division.
The JavaScript `number` argument is modelled as a rational; every IEEE
double is a rational, and for arguments where the product
`slippagePercent * 100` is exact in binary floating point (halves,
integers) `Math.floor` of the double product coincides with `Int.floor`
of the rational product. The function performs no input validation. -/
def calculateMinAmount (amount : ℤ) (slippagePercent : ℚ) : ℤ :=
  let slippageBasisPoints : ℤ := ⌊slippagePercent * 100⌋
  (amount * (10000 - slippageBasisPoints)).tdiv 10000

/-! ## Chain configuration and mesh routing (`src/lib/chains.ts`) -/

/-- OFT contract kind as recorded in `config/chains.json`
(`OFTAdapter` = lock/unlock, `NativeOFT` = single contract,
`ProxyOFT` = mint/burn). -/
inductive OftType
  | adapter
  | nativeOft
  | proxyOft
deriving DecidableEq, Repr

/-- Bridge network tag: the PYUSD mesh (lock/unlock adapters) or the
PYUSD0 mesh (mint/burn proxies). -/
inductive Network
  | pyusd
  | pyusd0
deriving DecidableEq, Repr

/-- One chain entry of the config file (interface `ConfigFileChain`).
Fields irrelevant to routing (block explorer, RPC URL, native currency)
are omitted; chain keys are taken in their canonical lowercase form, as
the source lowercases every key before lookup. -/
structure ConfigFileChain where
  name : String
  chainId : ℕ
  eid : ℕ
  tokenAddress : String
  oftAddress : String
  oftType : OftType
  decimals : ℕ
deriving DecidableEq, Repr

/-- The parsed `config/chains.json` (interface `ConfigFile`): one table
of chains per mesh, keyed by chain key. Association lists model the JSON
records; the source caches this as `cachedRawConfig`, here it is passed
explicitly. -/
structure ConfigFile where
  pyusd : List (String × ConfigFileChain)
  pyusd0 : List (String × ConfigFileChain)
deriving DecidableEq, Repr

/-- Full chain descriptor (`ChainConfig` in `src/types/index.ts`),
tagged with the mesh it was resolved from. -/
structure ChainConfig where
  chainKey : String
  name : String
  chainId : ℕ
  eid : ℕ
  tokenAddress : String
  oftAddress : String
  oftType : OftType
  decimals : ℕ
  network : Network
deriving DecidableEq, Repr

/-- Descriptor construction (`buildChainConfig` in `src/lib/chains.ts`);
the RPC-URL environment override does not affect routing and is omitted. -/
def buildChainConfig (chainKey : String) (chain : ConfigFileChain) (network : Network) :
    ChainConfig :=
  { chainKey := chainKey
    name := chain.name
    chainId := chain.chainId
    eid := chain.eid
    tokenAddress := chain.tokenAddress
    oftAddress := chain.oftAddress
    oftType := chain.oftType
    decimals := chain.decimals
    network := network }

/-- Flattened lookup built by `loadChainConfigs`: PYUSD chains are loaded
first and take precedence; a PYUSD0 chain is added only when the key is
not already present. -/
def loadChainConfigs (cfg : ConfigFile) (chainKey : String) : Option ChainConfig :=
  match cfg.pyusd.lookup chainKey with
  | some c => some (buildChainConfig chainKey c .pyusd)
  | none => (cfg.pyusd0.lookup chainKey).map (fun c => buildChainConfig chainKey c .pyusd0)

/-- Lookup in the flattened table (`getChainConfig`); throws when the key
is in neither mesh. -/
def getChainConfig (cfg : ConfigFile) (chainKey : String) : Except String ChainConfig :=
  match loadChainConfigs cfg chainKey with
  | some config => .ok config
  | none => .error ("Chain \"" ++ chainKey ++ "\" not supported")

/-- Mesh-specific lookup (`getChainConfigForNetwork`), bypassing the
PYUSD-takes-precedence rule; `none` when the chain is not in that mesh. -/
def getChainConfigForNetwork (cfg : ConfigFile) (chainKey : String) (network : Network) :
    Option ChainConfig :=
  let chains := match network with
    | .pyusd => cfg.pyusd
    | .pyusd0 => cfg.pyusd0
  (chains.lookup chainKey).map (fun c => buildChainConfig chainKey c network)

/-- Route resolution (`resolveChainConfigsForTransfer`): pick the mesh
containing the destination when that mesh is unique and both endpoints
resolve in it; otherwise fall through to the default flattened
resolution of each key independently. -/
def resolveChainConfigsForTransfer (cfg : ConfigFile) (sourceKey destKey : String) :
    Except String (ChainConfig × ChainConfig) :=
  let dstInPyusd := (cfg.pyusd.lookup destKey).isSome
  let dstInPyusd0 := (cfg.pyusd0.lookup destKey).isSome
  let branch1 : Option (ChainConfig × ChainConfig) :=
    if !dstInPyusd && dstInPyusd0 then
      match getChainConfigForNetwork cfg sourceKey .pyusd0,
            getChainConfigForNetwork cfg destKey .pyusd0 with
      | some s, some d => some (s, d)
      | _, _ => none
    else none
  let branch2 : Option (ChainConfig × ChainConfig) :=
    if dstInPyusd && !dstInPyusd0 then
      match getChainConfigForNetwork cfg sourceKey .pyusd,
            getChainConfigForNetwork cfg destKey .pyusd with
      | some s, some d => some (s, d)
      | _, _ => none
    else none
  match branch1 <|> branch2 with
  | some p => .ok p
  | none => do
    let srcConfig ← getChainConfig cfg sourceKey
    let dstConfig ← getChainConfig cfg destKey
    return (srcConfig, dstConfig)

/-! ### Concrete configuration fixtures -/

/-- Ethereum entry of the PYUSD (lock/unlock) mesh. -/
def ethereumPyusd : ConfigFileChain :=
  { name := "Ethereum", chainId := 1, eid := 30101
    tokenAddress := "0x6c3ea9036406852006290770bedfcaba0e23a0e8"
    oftAddress := "0xa2c323fe5a74adffad2bf3e007e36bb029606444"
    oftType := .adapter, decimals := 6 }

/-- Arbitrum entry of the PYUSD (lock/unlock) mesh. -/
def arbitrumPyusd : ConfigFileChain :=
  { name := "Arbitrum", chainId := 42161, eid := 30110
    tokenAddress := "0x46850ad61c2b7d64d08c9c754f45254596696984"
    oftAddress := "0xfab5891ed867a1195303251912013b92c4fc3a1d"
    oftType := .adapter, decimals := 6 }

/-- Arbitrum entry of the PYUSD0 (mint/burn) mesh: same chain, different
bridging contract. -/
def arbitrumPyusd0 : ConfigFileChain :=
  { name := "Arbitrum", chainId := 42161, eid := 30110
    tokenAddress := "0xarb-pyusd0-token", oftAddress := "0xarb-pyusd0-oft"
    oftType := .proxyOft, decimals := 6 }

/-- Avalanche entry of the PYUSD0 (mint/burn) mesh. -/
def avalanchePyusd0 : ConfigFileChain :=
  { name := "Avalanche", chainId := 43114, eid := 30106
    tokenAddress := "0xava-pyusd0-token", oftAddress := "0xava-pyusd0-oft"
    oftType := .proxyOft, decimals := 6 }

/-- Two-mesh fixture: Ethereum and Arbitrum hold PYUSD; Arbitrum and
Avalanche hold PYUSD0 (Arbitrum is the bridge chain present in both). -/
def sampleConfig : ConfigFile :=
  { pyusd := [("ethereum", ethereumPyusd), ("arbitrum", arbitrumPyusd)]
    pyusd0 := [("arbitrum", arbitrumPyusd0), ("avalanche", avalanchePyusd0)] }

/-! ## OFT helper library (`src/lib/oft.ts`) and the transfer command -/

/-- LayerZero SendParam struct (`src/types/index.ts`); byte-string
fields are kept as hex strings, uint256 amounts as `ℕ`. The source
field `to` (bytes32-padded recipient) is named `toAddress` because `to`
is reserved in Lean. -/
structure SendParam where
  dstEid : ℕ
  toAddress : String
  amountLD : ℕ
  minAmountLD : ℕ
  extraOptions : String
  composeMsg : String
  oftCmd : String
deriving DecidableEq, Repr

/-- LayerZero MessagingFee struct. -/
structure MessagingFee where
  nativeFee : ℕ
  lzTokenFee : ℕ
deriving DecidableEq, Repr

/-- OFT transfer limits returned by `quoteOFT`. -/
structure OFTLimit where
  minAmountLD : ℕ
  maxAmountLD : ℕ
deriving DecidableEq, Repr

/-- One protocol fee line item returned by `quoteOFT` (int256 amount). -/
structure OFTFeeDetail where
  feeAmountLD : ℤ
  description : String
deriving DecidableEq, Repr

/-- Receipt preview returned by `quoteOFT`. -/
structure OFTReceipt where
  amountSentLD : ℕ
  amountReceivedLD : ℕ
deriving DecidableEq, Repr

/-- Combined quote (`QuoteResult` in `src/types/index.ts`): always holds
the messaging fee, the limits, the fee breakdown and the receipt
preview together. -/
structure QuoteResult where
  feeDetails : List OFTFeeDetail
  limit : OFTLimit
  messagingFee : MessagingFee
  receipt : OFTReceipt
deriving DecidableEq, Repr

/-- Maximum uint256 value; `checkAndApprove` approves this amount rather
than the exact transfer amount. -/
def maxUint256 : ℕ := 2 ^ 256 - 1

/-- Network effects issued by the OFT helpers and the transfer command:
read-only contract calls, and submitted state-changing transactions. -/
inductive OftAction
  | readToken
  | readApprovalRequired
  | readBalance
  | readAllowance
  | approveTx (amount : ℕ)
  | quoteSendRead (p : SendParam)
  | quoteOftRead (p : SendParam)
  | sendTx (p : SendParam) (nativeFee : ℕ)
deriving DecidableEq, Repr

/-- One receipt log entry, reduced to its topics list. -/
structure Log where
  topics : List String
deriving DecidableEq, Repr

/-- Keccak topic of the `OFTSent(bytes32,uint32,address,uint256,uint256)`
event, as matched against `log.topics[0]` in `send`. -/
def oftSentTopic : String :=
  "0x85496b760a4b7f8d66384b9df21b381f5d1b1e79f229a47aaf4c232edc2fe59a"

/-- Guid extraction performed by `send` on the confirmed receipt: scan
the logs for the first `OFTSent` event and take its first indexed topic
(the guid); the explicit sentinel "0x" when no such event is present.
An emitted `OFTSent` log always carries the guid at `topics[1]`; the
`getD` default only covers the malformed-log case, which in the source
would surface as an undefined value rather than a fabricated guid. -/
def extractGuid : List Log → String
  | [] => "0x"
  | l :: rest =>
    if l.topics.head? = some oftSentTopic then (l.topics[1]?).getD "0x"
    else extractGuid rest

/-- Responses of the chain RPC collaborator, one field per contract read
or write performed by the OFT helpers. Reads other than the two quote
reads are modelled as total: an RPC failure there aborts the whole
command through the surrounding try/catch and no claim depends on it.
The write responses (`approveTxHash`, `sendTxHash`, `sendLogs`) describe
the confirmed transactions. -/
structure OftEnv where
  approvalRequired : Bool
  tokenAddress : String
  balance : ℕ
  allowance : ℕ
  quoteSendFee : SendParam → Except String MessagingFee
  quoteOft : SendParam → Except String (OFTLimit × List OFTFeeDetail × OFTReceipt)
  approveTxHash : String
  sendTxHash : String
  sendLogs : List Log

/-- Result of `checkAndApprove`. -/
structure ApprovalResult where
  approved : Bool
  txHash : Option String
deriving DecidableEq, Repr

/-- Approval manager (`checkAndApprove`): read `approvalRequired` and
return immediately when it is false; otherwise resolve the underlying
token, read the current allowance, and — only when it is below the
requested amount — submit one `approve(maxUint256)` transaction and
wait for its confirmation. The third component is the on-chain
allowance after the call: a confirmed maximum approval sets it to
`maxUint256`, every other path leaves it unchanged. -/
def checkAndApprove (env : OftEnv) (amount : ℕ) :
    List OftAction × ApprovalResult × ℕ :=
  if !env.approvalRequired then
    ([.readApprovalRequired], { approved := false, txHash := none }, env.allowance)
  else if amount ≤ env.allowance then
    ([.readApprovalRequired, .readToken, .readAllowance],
     { approved := false, txHash := none }, env.allowance)
  else
    ([.readApprovalRequired, .readToken, .readAllowance, .approveTx maxUint256],
     { approved := true, txHash := some env.approveTxHash }, maxUint256)

/-- Quote service (`quoteSend`): two sequential reads against the same
send parameters — the messaging-fee estimate (contract `quoteSend`) and
the protocol preview (contract `quoteOFT`). A failing first read
propagates before the second read is issued; the combined result is
assembled only when both reads succeed. -/
def quoteSend (env : OftEnv) (p : SendParam) :
    List OftAction × Except String QuoteResult :=
  match env.quoteSendFee p with
  | .error e => ([.quoteSendRead p], .error e)
  | .ok messagingFee =>
    match env.quoteOft p with
    | .error e => ([.quoteSendRead p, .quoteOftRead p], .error e)
    | .ok (limit, feeDetails, receipt) =>
      ([.quoteSendRead p, .quoteOftRead p],
       .ok { feeDetails := feeDetails, limit := limit,
             messagingFee := messagingFee, receipt := receipt })

/-- Result of `send`. -/
structure SendResult where
  guid : String
  txHash : String
deriving DecidableEq, Repr

/-- Send (`send`): submit the bridging transfer paying the quoted
native fee, wait for the receipt, and extract the guid from the
`OFTSent` event logs. -/
def send (env : OftEnv) (p : SendParam) (fee : MessagingFee) :
    List OftAction × SendResult :=
  ([.sendTx p fee.nativeFee],
   { guid := extractGuid env.sendLogs, txHash := env.sendTxHash })

/-- Stage errors of the transfer command; the source reports them via
`console.error` and a non-zero exit. -/
inductive TransferError
  | insufficientBalance
  | quoteFailed (msg : String)
deriving DecidableEq, Repr

/-- Outcome of a completed transfer command run. -/
structure TransferOutcome where
  txSubmitted : Bool
  txHash : Option String
  guid : Option String
  dryRun : Bool
deriving DecidableEq, Repr

/-- Transfer orchestration (the `transfer` command action in
`src/commands/transfer.ts`): step 1 balance check (underlying-token
lookup then balance read; abort when balance < amount), step 2
approval, step 3 quote, step 4 dry-run stop or send. The quote's
receipt preview is only displayed; the source performs no comparison of
`receipt.amountReceivedLD` against `minAmountLD` between quoting and
sending — slippage enforcement is left to the on-chain contract, which
receives `minAmountLD` inside the send parameters. -/
def transferCommand (env : OftEnv) (p : SendParam) (dryRun : Bool) :
    List OftAction × Except TransferError TransferOutcome :=
  let step1 : List OftAction := [.readToken, .readBalance]
  if env.balance < p.amountLD then
    (step1, .error .insufficientBalance)
  else
    let approval := checkAndApprove env p.amountLD
    let quoted := quoteSend env p
    match quoted.2 with
    | .error e => (step1 ++ approval.1 ++ quoted.1, .error (.quoteFailed e))
    | .ok quote =>
      if dryRun then
        (step1 ++ approval.1 ++ quoted.1,
         .ok { txSubmitted := false, txHash := none, guid := none, dryRun := true })
      else
        let sent := send env p quote.messagingFee
        (step1 ++ approval.1 ++ quoted.1 ++ sent.1,
         .ok { txSubmitted := true, txHash := some sent.2.txHash,
               guid := some sent.2.guid, dryRun := false })

/-- Number of approval transactions in an action trace. -/
def countApprovals (trace : List OftAction) : ℕ :=
  (trace.filter fun a => match a with
    | .approveTx _ => true
    | _ => false).length

/-! ### Concrete collaborator fixtures -/

/-- Send parameters for the spec scenario: 100 PYUSD (6 decimals) at
0.5 % slippage. -/
def sampleParam : SendParam :=
  { dstEid := 30106, toAddress := "0x000000000000000000000000ab", amountLD := 100000000
    minAmountLD := 99500000, extraOptions := "0x0003", composeMsg := "0x"
    oftCmd := "0x" }

/-- Messaging fee returned by the fixture collaborator. -/
def sampleFee : MessagingFee := { nativeFee := 100, lzTokenFee := 0 }

/-- Transfer limits returned by the fixture collaborator. -/
def sampleLimit : OFTLimit := { minAmountLD := 0, maxAmountLD := 1000000000000 }

/-- Receipt preview strictly below `sampleParam.minAmountLD`. -/
def lowReceipt : OFTReceipt := { amountSentLD := 100000000, amountReceivedLD := 99000000 }

/-- Collaborator fixture: approval required, allowance already above the
amount, both quote reads succeeding, and a preview below the slippage
floor of `sampleParam`. -/
def baseEnv : OftEnv :=
  { approvalRequired := true
    tokenAddress := "0xtoken"
    balance := 200000000
    allowance := 150000000
    quoteSendFee := fun _ => .ok sampleFee
    quoteOft := fun _ => .ok (sampleLimit, [], lowReceipt)
    approveTxHash := "0xapprovehash"
    sendTxHash := "0xsendhash"
    sendLogs := [{ topics := [oftSentTopic, "0xguid1"] }] }

/-! ## Theorems about slippage arithmetic (claim C3) -/

/-- C3 (counterexample): slippagePercent = 150 lies outside [0, 100) and
produces a negative minimum amount, yet `calculateMinAmount` returns it
instead of rejecting the input (the function performs no validation), so
the claim's rejection clause is false. 150 and 150 · 100 are exactly
representable doubles, so the rational model coincides with the source
here. -/
theorem calculateMinAmount_not_rejected_out_of_range :
    calculateMinAmount 100000000 150 = -50000000 ∧
    ¬ 0 ≤ calculateMinAmount 100000000 150 := by
  have h : calculateMinAmount 100000000 150 = -50000000 := by
    show (100000000 * (10000 - ⌊(150 : ℚ) * 100⌋)).tdiv 10000 = -50000000
    norm_num
    decide
  refine ⟨h, ?_⟩
  rw [h]
  decide

/-- C3 (amended): for amount ≥ 0 and slippagePercent in [0, 100), the
result equals floor(amount · (10000 − floor(slippagePercent · 100)) / 10000)
— the basis points are obtained with `Math.floor`, not rounding — and
satisfies 0 ≤ minAmount ≤ amount; amount 100_000000 at 0.5 % yields
99_500000. No input validation is performed, so out-of-range inputs are
not rejected (see the counterexample). -/
theorem calculateMinAmount_floor_bounds (amount : ℤ) (s : ℚ)
    (hamt : 0 ≤ amount) (h0 : 0 ≤ s) (h1 : s < 100) :
    calculateMinAmount amount s = amount * (10000 - ⌊s * 100⌋) / 10000 ∧
    0 ≤ calculateMinAmount amount s ∧
    calculateMinAmount amount s ≤ amount ∧
    calculateMinAmount 100000000 (1/2) = 99500000 := by
  have hb0 : (0 : ℤ) ≤ ⌊s * 100⌋ := Int.floor_nonneg.mpr (by positivity)
  have hb1 : ⌊s * 100⌋ < 10000 := by
    have hlt : s * 100 < 10000 := by nlinarith
    exact Int.floor_lt.mpr (by exact_mod_cast hlt)
  have hknn : (0 : ℤ) ≤ 10000 - ⌊s * 100⌋ := by omega
  have hnum : (0 : ℤ) ≤ amount * (10000 - ⌊s * 100⌋) := mul_nonneg hamt hknn
  have heq : calculateMinAmount amount s = amount * (10000 - ⌊s * 100⌋) / 10000 :=
    Int.tdiv_eq_ediv hnum (by norm_num)
  refine ⟨heq, ?_, ?_, ?_⟩
  · rw [heq]
    exact Int.ediv_nonneg hnum (by norm_num)
  · rw [heq]
    calc amount * (10000 - ⌊s * 100⌋) / 10000
        ≤ amount * 10000 / 10000 :=
          Int.ediv_le_ediv (by norm_num) (by nlinarith)
      _ = amount := Int.mul_ediv_cancel amount (by norm_num)
  · show (100000000 * (10000 - ⌊(1 / 2 : ℚ) * 100⌋)).tdiv 10000 = 99500000
    norm_num
    decide

/-- C3 witness: the amended theorem instantiated at the spec scenario,
amount = 100_000000 base units and slippage 0.5 %. -/
theorem calculateMinAmount_floor_bounds_witness :
    calculateMinAmount 100000000 (1/2) =
      100000000 * (10000 - ⌊(1/2 : ℚ) * 100⌋) / 10000 ∧
    0 ≤ calculateMinAmount 100000000 (1/2) ∧
    calculateMinAmount 100000000 (1/2) ≤ 100000000 ∧
    calculateMinAmount 100000000 (1/2) = 99500000 :=
  calculateMinAmount_floor_bounds 100000000 (1/2)
    (by norm_num) (by norm_num) (by norm_num)

/-! ## Theorems about mesh routing (claims C2 and C9) -/

/-- C2 (counterexample): Ethereum is only in the PYUSD mesh and Avalanche
only in the PYUSD0 mesh, yet route resolution succeeds and returns a
mixed descriptor pair (one endpoint per mesh) instead of failing with an
unsupported-route error. -/
theorem resolve_cross_mesh_returns_mixed_pair_example :
    resolveChainConfigsForTransfer sampleConfig "ethereum" "avalanche" =
      .ok (buildChainConfig "ethereum" ethereumPyusd .pyusd,
           buildChainConfig "avalanche" avalanchePyusd0 .pyusd0) ∧
    (buildChainConfig "ethereum" ethereumPyusd .pyusd).network ≠
      (buildChainConfig "avalanche" avalanchePyusd0 .pyusd0).network := by
  constructor
  · rfl
  · decide

/-- C2 (amended): when the destination belongs only to the PYUSD0 mesh
and the source is not a member of that mesh but is in the PYUSD mesh,
`resolveChainConfigsForTransfer` does not fail: it falls back to the
default flattened per-key resolution and returns the cross-mesh pair
(source from PYUSD, destination from PYUSD0). An error occurs only when
a key is absent from both meshes. -/
theorem resolve_cross_mesh_falls_back_to_default (cfg : ConfigFile)
    (src dst : String) (cs cd : ConfigFileChain)
    (hd0 : cfg.pyusd0.lookup dst = some cd)
    (hd : cfg.pyusd.lookup dst = none)
    (hs0 : cfg.pyusd0.lookup src = none)
    (hs : cfg.pyusd.lookup src = some cs) :
    resolveChainConfigsForTransfer cfg src dst =
      .ok (buildChainConfig src cs .pyusd, buildChainConfig dst cd .pyusd0) := by
  simp [resolveChainConfigsForTransfer, getChainConfigForNetwork,
    getChainConfig, loadChainConfigs, hd0, hd, hs0, hs]
  rfl

/-- C2 witness: the fallback theorem instantiated on the concrete
two-mesh fixture at (ethereum, avalanche). -/
theorem resolve_cross_mesh_falls_back_to_default_witness :
    resolveChainConfigsForTransfer sampleConfig "ethereum" "avalanche" =
      .ok (buildChainConfig "ethereum" ethereumPyusd .pyusd,
           buildChainConfig "avalanche" avalanchePyusd0 .pyusd0) :=
  resolve_cross_mesh_falls_back_to_default sampleConfig "ethereum" "avalanche"
    ethereumPyusd avalanchePyusd0 rfl rfl rfl rfl

/-- C9: when source and destination are both members of the PYUSD mesh
and the destination is additionally a member of the PYUSD0 mesh, the
resolution returns the PYUSD descriptor for both endpoints (both tagged
with the PYUSD mesh, carrying that mesh's bridging-contract addresses),
never a mixed pair. -/
theorem resolve_same_mesh_pair_pyusd (cfg : ConfigFile)
    (src dst : String) (cs cd cd0 : ConfigFileChain)
    (hs : cfg.pyusd.lookup src = some cs)
    (hd : cfg.pyusd.lookup dst = some cd)
    (hd0 : cfg.pyusd0.lookup dst = some cd0) :
    resolveChainConfigsForTransfer cfg src dst =
      .ok (buildChainConfig src cs .pyusd, buildChainConfig dst cd .pyusd) ∧
    (buildChainConfig src cs .pyusd).network = .pyusd ∧
    (buildChainConfig dst cd .pyusd).network = .pyusd ∧
    (buildChainConfig dst cd .pyusd).oftAddress = cd.oftAddress := by
  refine ⟨?_, rfl, rfl, rfl⟩
  simp [resolveChainConfigsForTransfer, getChainConfigForNetwork,
    getChainConfig, loadChainConfigs, hs, hd, hd0]
  rfl

/-! ## Theorems about the approval manager (claims C4 and C5) -/

/-- C4: when approval is required and the on-chain allowance already
covers the amount, `checkAndApprove` reports `approved = false` and
submits no transaction; consequently two successive calls whose
on-chain allowance changes only through the first call's own confirmed
approval submit at most one approval transaction in total. -/
theorem checkAndApprove_idempotent (env : OftEnv) (amount : ℕ)
    (hamt : amount ≤ maxUint256) :
    (env.approvalRequired = true → amount ≤ env.allowance →
      (checkAndApprove env amount).2.1.approved = false ∧
      countApprovals (checkAndApprove env amount).1 = 0) ∧
    countApprovals ((checkAndApprove env amount).1 ++
      (checkAndApprove { env with allowance := (checkAndApprove env amount).2.2 }
        amount).1) ≤ 1 := by
  by_cases hreq : env.approvalRequired
  · by_cases hall : amount ≤ env.allowance
    · simp [checkAndApprove, countApprovals, hreq, hall]
    · simp [checkAndApprove, countApprovals, hreq, hall, hamt]
  · simp [checkAndApprove, countApprovals, hreq]

/-- C4 witness: the fixture has allowance 150_000000 ≥ amount
100_000000; no approval transaction across two successive calls. -/
theorem checkAndApprove_idempotent_witness :
    ((baseEnv.approvalRequired = true → 100000000 ≤ baseEnv.allowance →
      (checkAndApprove baseEnv 100000000).2.1.approved = false ∧
      countApprovals (checkAndApprove baseEnv 100000000).1 = 0) ∧
    countApprovals ((checkAndApprove baseEnv 100000000).1 ++
      (checkAndApprove
        { baseEnv with allowance := (checkAndApprove baseEnv 100000000).2.2 }
        100000000).1) ≤ 1) :=
  checkAndApprove_idempotent baseEnv 100000000 (by decide)

/-- C5: when the bridging contract does not require standing approval,
`checkAndApprove` returns `approved = false` after the single
`approvalRequired` read: no underlying-token lookup, no allowance read,
no transaction. -/
theorem checkAndApprove_not_required_no_side_effect (env : OftEnv) (amount : ℕ)
    (h : env.approvalRequired = false) :
    (checkAndApprove env amount).2.1 = { approved := false, txHash := none } ∧
    (checkAndApprove env amount).1 = [.readApprovalRequired] := by
  simp [checkAndApprove, h]

/-- C5 witness: a mint/burn fixture (approval not required) at the spec
scenario amount. -/
theorem checkAndApprove_not_required_no_side_effect_witness :
    (checkAndApprove { baseEnv with approvalRequired := false } 100000000).2.1 =
      { approved := false, txHash := none } ∧
    (checkAndApprove { baseEnv with approvalRequired := false } 100000000).1 =
      [.readApprovalRequired] :=
  checkAndApprove_not_required_no_side_effect
    { baseEnv with approvalRequired := false } 100000000 rfl

/-! ## Theorems about the transfer command (claims C1 and C6) -/

/-- C1 (counterexample): on the concrete fixture the quote preview
(99_000000) is strictly below the request's `minAmountLD` (99_500000),
yet the transfer command completes without error and the send
transaction is submitted — there is no slippage failure between quote
and send. -/
theorem transfer_slippage_claim_counterexample :
    lowReceipt.amountReceivedLD < sampleParam.minAmountLD ∧
    (transferCommand baseEnv sampleParam false).2.isOk = true ∧
    OftAction.sendTx sampleParam sampleFee.nativeFee ∈
      (transferCommand baseEnv sampleParam false).1 := by
  refine ⟨by decide, ?_, ?_⟩ <;> decide

/-- C1 (amended): the transfer command performs no client-side slippage
gate. Whenever the balance suffices and both quote reads succeed with a
preview strictly below `minAmountLD`, the non-dry run still completes
and submits the bridging send transaction (carrying that same
`minAmountLD`, whose enforcement is the on-chain contract's). -/
theorem transfer_submits_send_despite_low_preview (env : OftEnv) (p : SendParam)
    (fee : MessagingFee) (limit : OFTLimit) (fees : List OFTFeeDetail)
    (receipt : OFTReceipt)
    (hbal : p.amountLD ≤ env.balance)
    (hq1 : env.quoteSendFee p = .ok fee)
    (hq2 : env.quoteOft p = .ok (limit, fees, receipt))
    (_hlow : receipt.amountReceivedLD < p.minAmountLD) :
    (transferCommand env p false).2 =
      .ok { txSubmitted := true, txHash := some env.sendTxHash,
            guid := some (extractGuid env.sendLogs), dryRun := false } ∧
    OftAction.sendTx p fee.nativeFee ∈ (transferCommand env p false).1 := by
  have hnb : ¬ env.balance < p.amountLD := not_lt.mpr hbal
  constructor
  · simp [transferCommand, hnb, quoteSend, hq1, hq2, send]
  · simp [transferCommand, hnb, quoteSend, hq1, hq2, send]

/-- C1 witness: the amended theorem instantiated on the fixture whose
preview is below the slippage floor. -/
theorem transfer_submits_send_despite_low_preview_witness :
    (transferCommand baseEnv sampleParam false).2 =
      .ok { txSubmitted := true, txHash := some baseEnv.sendTxHash,
            guid := some (extractGuid baseEnv.sendLogs), dryRun := false } ∧
    OftAction.sendTx sampleParam sampleFee.nativeFee ∈
      (transferCommand baseEnv sampleParam false).1 :=
  transfer_submits_send_despite_low_preview baseEnv sampleParam
    sampleFee sampleLimit [] lowReceipt (by decide) rfl rfl (by decide)

/-- C6: when the sender balance is below the requested amount, the
transfer command aborts at the balance stage with the
insufficient-balance error; its trace is exactly the token lookup and
the balance read — no allowance read, no approval transaction, no quote
read, no send. -/
theorem transferCommand_insufficient_balance_aborts (env : OftEnv) (p : SendParam)
    (dryRun : Bool) (h : env.balance < p.amountLD) :
    transferCommand env p dryRun =
      ([.readToken, .readBalance], .error .insufficientBalance) ∧
    OftAction.readAllowance ∉ (transferCommand env p dryRun).1 ∧
    OftAction.quoteSendRead p ∉ (transferCommand env p dryRun).1 ∧
    OftAction.quoteOftRead p ∉ (transferCommand env p dryRun).1 ∧
    (∀ amt, OftAction.approveTx amt ∉ (transferCommand env p dryRun).1) ∧
    (∀ fee, OftAction.sendTx p fee ∉ (transferCommand env p dryRun).1) := by
  refine ⟨by simp [transferCommand, h], ?_, ?_, ?_, ?_, ?_⟩ <;>
    simp [transferCommand, h]

/-- C6 witness: the spec scenario — balance 50_000000, requested amount
100_000000 — aborts with the insufficient-balance error and performs
nothing else. -/
theorem transferCommand_insufficient_balance_aborts_witness :
    transferCommand { baseEnv with balance := 50000000 } sampleParam false =
      ([.readToken, .readBalance], .error .insufficientBalance) ∧
    OftAction.readAllowance ∉
      (transferCommand { baseEnv with balance := 50000000 } sampleParam false).1 ∧
    OftAction.quoteSendRead sampleParam ∉
      (transferCommand { baseEnv with balance := 50000000 } sampleParam false).1 ∧
    OftAction.quoteOftRead sampleParam ∉
      (transferCommand { baseEnv with balance := 50000000 } sampleParam false).1 ∧
    (∀ amt, OftAction.approveTx amt ∉
      (transferCommand { baseEnv with balance := 50000000 } sampleParam false).1) ∧
    (∀ fee, OftAction.sendTx sampleParam fee ∉
      (transferCommand { baseEnv with balance := 50000000 } sampleParam false).1) :=
  transferCommand_insufficient_balance_aborts
    { baseEnv with balance := 50000000 } sampleParam false (by decide)

/-! ## Theorems about the quote service (claim C7) -/

/-- C7: the quote is all-or-nothing — every read in its trace targets
the one given send-parameter value, the result succeeds exactly when
both collaborator reads succeed, and a successful result carries both
the messaging fee of the first read and the limits, fee breakdown and
receipt preview of the second; no partial quote is representable or
returned. -/
theorem quoteSend_all_or_nothing (env : OftEnv) (p : SendParam) :
    ((quoteSend env p).2.isOk = true ↔
      (env.quoteSendFee p).isOk = true ∧ (env.quoteOft p).isOk = true) ∧
    (∀ a ∈ (quoteSend env p).1,
      a = OftAction.quoteSendRead p ∨ a = OftAction.quoteOftRead p) ∧
    (∀ fee limit fees receipt,
      env.quoteSendFee p = .ok fee → env.quoteOft p = .ok (limit, fees, receipt) →
      (quoteSend env p).2 =
        .ok { feeDetails := fees, limit := limit,
              messagingFee := fee, receipt := receipt }) := by
  refine ⟨?_, ?_, ?_⟩
  · cases hq1 : env.quoteSendFee p with
    | error e => simp [quoteSend, hq1, Except.isOk, Except.toBool]
    | ok fee =>
      cases hq2 : env.quoteOft p with
      | error e => simp [quoteSend, hq1, hq2, Except.isOk, Except.toBool]
      | ok triple =>
        obtain ⟨limit, fees, receipt⟩ := triple
        simp [quoteSend, hq1, hq2, Except.isOk, Except.toBool]
  · intro a ha
    cases hq1 : env.quoteSendFee p with
    | error e =>
      simp [quoteSend, hq1] at ha
      simp [ha]
    | ok fee =>
      cases hq2 : env.quoteOft p with
      | error e =>
        simp [quoteSend, hq1, hq2] at ha
        tauto
      | ok triple =>
        obtain ⟨limit, fees, receipt⟩ := triple
        simp [quoteSend, hq1, hq2] at ha
        tauto
  · intro fee limit fees receipt hq1 hq2
    simp [quoteSend, hq1, hq2]

/-- C7 witness: on the fixture both reads succeed and the assembled
quote carries the fixture fee and the fixture preview together. -/
theorem quoteSend_all_or_nothing_witness :
    (quoteSend baseEnv sampleParam).2 =
      .ok { feeDetails := [], limit := sampleLimit,
            messagingFee := sampleFee, receipt := lowReceipt } ∧
    (quoteSend baseEnv sampleParam).2.isOk = true :=
  ⟨(quoteSend_all_or_nothing baseEnv sampleParam).2.2 sampleFee sampleLimit []
      lowReceipt rfl rfl,
   (quoteSend_all_or_nothing baseEnv sampleParam).1.mpr ⟨rfl, rfl⟩⟩

/-! ## Theorems about guid extraction (claim C8) -/

/-- Helper: the recursive extraction agrees with taking the first
`OFTSent` log found in the receipt. -/
theorem extractGuid_eq_find (logs : List Log) :
    extractGuid logs =
      match logs.find? (fun l => l.topics.head? == some oftSentTopic) with
      | some l => (l.topics[1]?).getD "0x"
      | none => "0x" := by
  induction logs with
  | nil => rfl
  | cons l rest ih =>
    by_cases h : l.topics.head? = some oftSentTopic
    · simp [extractGuid, List.find?, h]
    · have hb : (l.topics.head? == some oftSentTopic) = false :=
        beq_eq_false_iff_ne.mpr h
      simp [extractGuid, List.find?, h, hb, ih]

/-- C8: the message identifier returned by `send` comes from the first
`OFTSent` event of the confirmed receipt's logs, and is the explicit
sentinel "0x" when no such event is present; in every case the guid is
either the sentinel or a value read out of an actual `OFTSent` log of
the receipt — never fabricated. -/
theorem send_guid_from_oftsent_event (env : OftEnv) (p : SendParam)
    (fee : MessagingFee) :
    ((send env p fee).2.guid =
      match env.sendLogs.find? (fun l => l.topics.head? == some oftSentTopic) with
      | some l => (l.topics[1]?).getD "0x"
      | none => "0x") ∧
    ((send env p fee).2.guid = "0x" ∨
      ∃ l ∈ env.sendLogs, l.topics.head? = some oftSentTopic ∧
        (send env p fee).2.guid = (l.topics[1]?).getD "0x") := by
  have hg : (send env p fee).2.guid = extractGuid env.sendLogs := rfl
  refine ⟨hg.trans (extractGuid_eq_find env.sendLogs), ?_⟩
  rw [hg, extractGuid_eq_find env.sendLogs]
  cases hf : env.sendLogs.find? (fun l => l.topics.head? == some oftSentTopic) with
  | none => exact Or.inl rfl
  | some l =>
    refine Or.inr ⟨l, List.mem_of_find?_eq_some hf, ?_, rfl⟩
    have := List.find?_some hf
    simpa using this

/-- C9 witness: (ethereum, arbitrum) on the concrete fixture — Arbitrum
is in both meshes, and both returned descriptors come from the PYUSD
mesh. -/
theorem resolve_same_mesh_pair_pyusd_witness :
    resolveChainConfigsForTransfer sampleConfig "ethereum" "arbitrum" =
      .ok (buildChainConfig "ethereum" ethereumPyusd .pyusd,
           buildChainConfig "arbitrum" arbitrumPyusd .pyusd) ∧
    (buildChainConfig "ethereum" ethereumPyusd .pyusd).network = .pyusd ∧
    (buildChainConfig "arbitrum" arbitrumPyusd .pyusd).network = .pyusd ∧
    (buildChainConfig "arbitrum" arbitrumPyusd .pyusd).oftAddress =
      arbitrumPyusd.oftAddress :=
  resolve_same_mesh_pair_pyusd sampleConfig "ethereum" "arbitrum"
    ethereumPyusd arbitrumPyusd arbitrumPyusd0 rfl rfl rfl

/-! ## Stargate quote client (`src/lib/stargate.ts`, claim C10) -/

/-- One pre-built transaction step of a Stargate execution plan; the
transaction payload is irrelevant to quote classification and reduced
to the step type. -/
structure StargateStep where
  stepType : String
deriving DecidableEq, Repr

/-- One candidate quote of the Stargate API response. `errMsg` models
`quote.error?.message` (the API may return quotes carrying embedded
errors); an error object with a missing message behaves as `some ""`
since both the truthiness test on the message and the validity filter
treat them alike. String amounts model the JSON string fields, where
the empty string is the only falsy value. -/
structure StargateQuote where
  steps : List StargateStep
  srcAmount : String
  dstAmount : String
  errMsg : Option String
deriving DecidableEq, Repr

/-- The parsed response body; `quotes = none` models a response without
a `quotes` field. -/
structure StargateQuoteResponse where
  quotes : Option (List StargateQuote)
  errMsg : Option String
deriving DecidableEq, Repr

/-- Result record returned by `fetchStargateQuote`. -/
structure StargateQuoteResult where
  success : Bool
  quotes : List StargateQuote
  error : Option String
  bestQuote : Option StargateQuote
  srcAmount : Option String
  dstAmount : Option String
  stepCount : Option ℕ
deriving DecidableEq, Repr

/-- Every possible collaborator outcome of the single `fetch` of
`fetchStargateQuote`: the request (or body parsing) threw — `isError`
records whether the thrown value was an `Error` instance carrying
`message` — the response was non-OK with an optionally parseable error
body, or a response body was obtained. -/
inductive FetchOutcome
  | thrown (isError : Bool) (message : String)
  | notOk (status : ℕ) (bodyErrMsg : Option String)
  | okResp (data : StargateQuoteResponse)
deriving DecidableEq, Repr

/-- Validity filter applied to candidate quotes:
`!q.error && q.srcAmount && q.dstAmount && q.steps?.length > 0`. -/
def isValidQuote (q : StargateQuote) : Bool :=
  q.errMsg.isNone && q.srcAmount != "" && q.dstAmount != "" &&
    decide (0 < q.steps.length)

/-- Shared failure result with no quotes. -/
def stargateFailure (msg : String) : StargateQuoteResult :=
  { success := false, quotes := [], error := some msg, bestQuote := none
    srcAmount := none, dstAmount := none, stepCount := none }

/-- Stargate quote client (`fetchStargateQuote`): a total function of
the collaborator outcome. A thrown value maps to its message when it is
an `Error` (even an empty message) and to "Unknown error" otherwise; a
non-OK response maps to the parsed body message when truthy, else
"API Error (status)"; an OK body with no or only invalid quotes maps to
the response (or first embedded) error message when truthy, else a
fixed fallback; otherwise the first valid quote is authoritative. -/
def fetchStargateQuote : FetchOutcome → StargateQuoteResult
  | .thrown isError message =>
    stargateFailure (if isError then message else "Unknown error")
  | .notOk status bodyErrMsg =>
    let statusText := "API Error (" ++ toString status ++ ")"
    stargateFailure (match bodyErrMsg with
      | some m => if m != "" then m else statusText
      | none => statusText)
  | .okResp data =>
    let noRoutes := stargateFailure (match data.errMsg with
      | some m => if m != "" then m else "No routes available"
      | none => "No routes available")
    match data.quotes with
    | none => noRoutes
    | some qs =>
      if qs.isEmpty then noRoutes
      else
        match qs.filter isValidQuote with
        | [] =>
          let firstError := (qs.find? fun q => q.errMsg.isSome).bind (·.errMsg)
          stargateFailure (match firstError with
            | some m => if m != "" then m else "No valid routes available"
            | none => "No valid routes available")
        | best :: restValid =>
          { success := true, quotes := best :: restValid, error := none
            bestQuote := some best, srcAmount := some best.srcAmount
            dstAmount := some best.dstAmount, stepCount := some best.steps.length }

/-- C10 (counterexample): a network exception that is an `Error` with an
empty `message` yields `success = false` with the empty error string,
so the claimed "non-empty error string" does not hold for every
collaborator outcome. -/
theorem fetchStargateQuote_empty_error_message_example :
    (fetchStargateQuote (.thrown true "")).success = false ∧
    (fetchStargateQuote (.thrown true "")).error = some "" := by
  exact ⟨rfl, rfl⟩

/-- Helper: every run of `fetchStargateQuote` is either a failure record
(with an error message and no quotes) or a success. -/
theorem fetchStargateQuote_shape (o : FetchOutcome) :
    (∃ msg, fetchStargateQuote o = stargateFailure msg) ∨
    (fetchStargateQuote o).success = true := by
  cases o with
  | thrown isError message => exact Or.inl ⟨_, rfl⟩
  | notOk status bodyErrMsg => exact Or.inl ⟨_, rfl⟩
  | okResp data =>
    cases hq : data.quotes with
    | none => exact Or.inl ⟨_, by simp [fetchStargateQuote, hq]; rfl⟩
    | some qs =>
      cases qs with
      | nil => exact Or.inl ⟨_, by simp [fetchStargateQuote, hq]; rfl⟩
      | cons q qrest =>
        cases hf : (q :: qrest).filter isValidQuote with
        | nil => exact Or.inl ⟨_, by simp [fetchStargateQuote, hq, hf]; rfl⟩
        | cons best restValid =>
          exact Or.inr (by simp [fetchStargateQuote, hq, hf])

/-- Helper: the synthesized HTTP error text is never empty. -/
theorem apiErrorText_ne_empty (status : ℕ) :
    "API Error (" ++ toString status ++ ")" ≠ "" := by
  intro h
  have hlen := congrArg String.length h
  simp [String.length_append] at hlen
  exact absurd hlen.1.1 (by decide)

/-- Helper: an empty error message can only arise from a thrown `Error`
whose own message is empty; every other failure branch falls back to a
non-empty text. -/
theorem stargate_empty_error_only_thrown (o : FetchOutcome) (m : String)
    (hm : (fetchStargateQuote o).error = some m) (hempty : m = "") :
    o = .thrown true "" := by
  subst hempty
  cases o with
  | thrown isError message =>
    cases isError with
    | false =>
      simp [fetchStargateQuote, stargateFailure] at hm
    | true =>
      simp [fetchStargateQuote, stargateFailure] at hm
      simp [hm]
  | notOk status bodyErrMsg =>
    exfalso
    cases bodyErrMsg with
    | none =>
      simp [fetchStargateQuote, stargateFailure] at hm
      exact apiErrorText_ne_empty status hm
    | some mb =>
      by_cases hb : mb = ""
      · subst hb
        simp [fetchStargateQuote, stargateFailure] at hm
        exact apiErrorText_ne_empty status hm
      · simp [fetchStargateQuote, stargateFailure, hb] at hm
  | okResp data =>
    exfalso
    cases hq : data.quotes with
    | none =>
      simp only [fetchStargateQuote, hq, stargateFailure, Option.some.injEq] at hm
      revert hm
      cases data.errMsg with
      | none => simp
      | some me => by_cases hme : me = "" <;> simp [hme]
    | some qs =>
      cases qs with
      | nil =>
        simp only [fetchStargateQuote, hq, stargateFailure, Option.some.injEq] at hm
        revert hm
        cases data.errMsg with
        | none => simp
        | some me => by_cases hme : me = "" <;> simp [hme]
      | cons q qrest =>
        cases hf : (q :: qrest).filter isValidQuote with
        | nil =>
          simp only [fetchStargateQuote, hq, hf, stargateFailure, Option.some.injEq] at hm
          revert hm
          cases hfe : ((q :: qrest).find? fun r => r.errMsg.isSome).bind (fun r => r.errMsg) with
          | none => simp
          | some me => by_cases hme : me = "" <;> simp [hme]
        | cons best restValid =>
          simp [fetchStargateQuote, hq, hf] at hm

/-- Helper: success holds exactly when the collaborator returned an OK
body containing at least one valid quote. -/
theorem stargate_success_iff (o : FetchOutcome) :
    (fetchStargateQuote o).success = true ↔
      ∃ data qs, o = .okResp data ∧ data.quotes = some qs ∧
        ∃ q ∈ qs, isValidQuote q = true := by
  cases o with
  | thrown isError message =>
    simp [fetchStargateQuote, stargateFailure]
  | notOk status bodyErrMsg =>
    simp [fetchStargateQuote, stargateFailure]
  | okResp data =>
    constructor
    · intro h
      cases hq : data.quotes with
      | none => rw [fetchStargateQuote, hq] at h; simp [stargateFailure] at h
      | some qs =>
        cases qs with
        | nil => rw [fetchStargateQuote, hq] at h; simp [stargateFailure] at h
        | cons q qrest =>
          cases hf : (q :: qrest).filter isValidQuote with
          | nil => rw [fetchStargateQuote, hq] at h; simp [hf, stargateFailure] at h
          | cons best restValid =>
            have hbm : best ∈ (q :: qrest).filter isValidQuote := by
              rw [hf]; exact List.mem_cons_self best restValid
            have := List.mem_filter.mp hbm
            exact ⟨data, q :: qrest, rfl, hq, best, this.1, this.2⟩
    · rintro ⟨d, qs, heq, hqs, r, hmem, hval⟩
      injection heq with hd
      subst hd
      cases qs with
      | nil => cases hmem
      | cons q qrest =>
        cases hf : (q :: qrest).filter isValidQuote with
        | nil =>
          exact absurd hval (List.filter_eq_nil_iff.mp hf r hmem)
        | cons best restValid =>
          rw [fetchStargateQuote, hqs]
          simp [hf]

/-- Helper: on success the best quote is the first valid quote, and the
convenience fields are populated from it. -/
theorem stargate_best_quote (o : FetchOutcome)
    (h : (fetchStargateQuote o).success = true) :
    ∃ data qs best, o = .okResp data ∧ data.quotes = some qs ∧
      (qs.filter isValidQuote).head? = some best ∧
      (fetchStargateQuote o).bestQuote = some best ∧
      isValidQuote best = true ∧
      (fetchStargateQuote o).quotes = qs.filter isValidQuote ∧
      (fetchStargateQuote o).srcAmount = some best.srcAmount ∧
      (fetchStargateQuote o).dstAmount = some best.dstAmount ∧
      (fetchStargateQuote o).stepCount = some best.steps.length := by
  cases o with
  | thrown isError message => simp [fetchStargateQuote, stargateFailure] at h
  | notOk status bodyErrMsg => simp [fetchStargateQuote, stargateFailure] at h
  | okResp data =>
    cases hq : data.quotes with
    | none => rw [fetchStargateQuote, hq] at h; simp [stargateFailure] at h
    | some qs =>
      cases qs with
      | nil => rw [fetchStargateQuote, hq] at h; simp [stargateFailure] at h
      | cons q qrest =>
        cases hf : (q :: qrest).filter isValidQuote with
        | nil => rw [fetchStargateQuote, hq] at h; simp [hf, stargateFailure] at h
        | cons best restValid =>
          have hbm : best ∈ (q :: qrest).filter isValidQuote := by
            rw [hf]; exact List.mem_cons_self best restValid
          refine ⟨data, q :: qrest, best, rfl, hq, by rw [hf]; rfl, ?_,
            (List.mem_filter.mp hbm).2, ?_, ?_, ?_, ?_⟩ <;>
            rw [fetchStargateQuote, hq] <;> simp [hf]

/-- C10 (amended): `fetchStargateQuote` is a total function of the
collaborator outcome; every failure carries an error string, and that
string is non-empty except in the one passthrough case of a thrown
`Error` whose own message is empty; success holds exactly when the OK
response contains at least one valid quote (no embedded error,
populated amounts, at least one step); and on success the best quote is
the first valid quote, with the convenience amounts and step count
taken from it. -/
theorem fetchStargateQuote_total_classification (o : FetchOutcome) :
    ((fetchStargateQuote o).success = false →
      (fetchStargateQuote o).error.isSome = true) ∧
    (∀ m, (fetchStargateQuote o).error = some m → m = "" →
      o = .thrown true "") ∧
    ((fetchStargateQuote o).success = true ↔
      ∃ data qs, o = .okResp data ∧ data.quotes = some qs ∧
        ∃ q ∈ qs, isValidQuote q = true) ∧
    ((fetchStargateQuote o).success = true →
      ∃ data qs best, o = .okResp data ∧ data.quotes = some qs ∧
        (qs.filter isValidQuote).head? = some best ∧
        (fetchStargateQuote o).bestQuote = some best ∧
        isValidQuote best = true ∧
        (fetchStargateQuote o).quotes = qs.filter isValidQuote ∧
        (fetchStargateQuote o).srcAmount = some best.srcAmount ∧
        (fetchStargateQuote o).dstAmount = some best.dstAmount ∧
        (fetchStargateQuote o).stepCount = some best.steps.length) := by
  refine ⟨?_, fun m hm he => stargate_empty_error_only_thrown o m hm he,
    stargate_success_iff o, fun h => stargate_best_quote o h⟩
  intro hs
  rcases fetchStargateQuote_shape o with ⟨msg, hmsg⟩ | hsucc
  · rw [hmsg]; rfl
  · rw [hsucc] at hs; cases hs

/-- Valid candidate quote fixture: no embedded error, populated
amounts, one bridge step. -/
def sampleStargateQuote : StargateQuote :=
  { steps := [{ stepType := "bridge" }], srcAmount := "100000000"
    dstAmount := "100000000", errMsg := none }

/-- OK response fixture carrying one valid quote. -/
def sampleStargateResponse : StargateQuoteResponse :=
  { quotes := some [sampleStargateQuote], errMsg := none }

/-- C10 witness: the classification instantiated at a thrown non-Error
outcome (failure with an error string) and at an OK response with one
valid quote (success). -/
theorem fetchStargateQuote_total_classification_witness :
    (fetchStargateQuote (.thrown false "boom")).error.isSome = true ∧
    (fetchStargateQuote (.okResp sampleStargateResponse)).success = true :=
  ⟨(fetchStargateQuote_total_classification (.thrown false "boom")).1 rfl,
   (fetchStargateQuote_total_classification (.okResp sampleStargateResponse)).2.2.1.mpr
     ⟨sampleStargateResponse, [sampleStargateQuote], rfl, rfl,
      sampleStargateQuote, by simp, by decide⟩⟩

end PyusdLz

